import Mathlib

/-!
Verification development for the DAD environment-lifecycle orchestrator
(`backend/app.py`).  The Python code is shallowly embedded: pure logic becomes
Lean functions, and every interaction with the outside world (the container
runtime, the network stack, the database client) is represented by an oracle
parameter recording what the external call would have returned.
-/

set_option maxRecDepth 8000

/-- Result dictionary returned by `DatabaseManager.run_docker_command`
(keys `success`, `stdout`, `stderr`, `returncode`). -/
structure CmdResult where
  success : Bool
  stdout : String
  stderr : String
  returncode : Int
deriving Repr, DecidableEq

/-- The three ways the underlying `subprocess.run` call can end, as observed at
the `try/except` in `run_docker_command`: normal completion with an exit code,
a `TimeoutExpired`, or any other raised exception. -/
inductive ProcOutcome where
  | completed (returncode : Int) (stdout stderr : String)
  | timedOut
  | raised (message : String)

/-- The hard-coded sudo password from the top of `app.py`. -/
def SUDO_PASSWORD : String := "Yunus@7866"

/-- The `full_command` string built at the start of `run_docker_command`. -/
def sudoWrap (command : String) : String :=
  "echo \"" ++ SUDO_PASSWORD ++ "\" | sudo -S " ++ command

/-- `DatabaseManager.run_docker_command` (lines 135-166): maps the outcome of
the external process to the structured result dictionary.  `success` is
`returncode == 0` on completion; a timeout yields the distinguished
`Command timed out` failure with sentinel code `-1`; any other raised
exception is converted to a failure carrying its message. -/
def run_docker_command : ProcOutcome → CmdResult
  | ProcOutcome.completed rc out err =>
      { success := rc == 0, stdout := out, stderr := err, returncode := rc }
  | ProcOutcome.timedOut =>
      { success := false, stdout := "", stderr := "Command timed out", returncode := -1 }
  | ProcOutcome.raised e =>
      { success := false, stdout := "", stderr := e, returncode := -1 }

/-- One `{'host': ..., 'container': ...}` entry of an environment's
`ports` mapping. -/
structure PortInfo where
  host : Nat
  container : Nat
deriving Repr, DecidableEq

/-- The used-port contribution of the recorded environments: every `host`
value appearing in any known environment's `ports` mapping
(lines 65-70 of `find_free_ports`). -/
def recordedHostPorts (knownEnvs : List (List (String × PortInfo))) : List Nat :=
  knownEnvs.flatMap (fun ports => ports.map (fun rp => rp.2.host))

/-- Port eligibility test from the scan loop (lines 117-125): the TCP connect
probe must fail (`probeFree` is `true` when `connect_ex` returned nonzero and
no exception occurred) and the port must not be in the used set. -/
def eligiblePort (used_ports : List Nat) (probeFree : Nat → Bool) (p : Nat) : Bool :=
  probeFree p && !(used_ports.contains p)

/-- The `while len(free_ports) < count and current_port < 65535` loop of
`find_free_ports` (lines 115-128).  `fuel` is `65535 - current`, so the fuel
runs out exactly when `current_port` reaches 65535. -/
def findLoopAux (elig : Nat → Bool) (count : Nat) : Nat → Nat → List Nat → List Nat
  | 0, _, acc => acc
  | fuel + 1, current, acc =>
    if acc.length < count then
      findLoopAux elig count fuel (current + 1)
        (if elig current then acc ++ [current] else acc)
    else acc

/-- `DatabaseManager.find_free_ports` (lines 59-133).  The used-port set is
assembled from the recorded environments plus the ports reported by
`docker ps` and by per-environment `docker compose ps` (both passed in as the
already-parsed lists, since they come from external commands).  Raising the
`Could not find ... free ports` exception is modelled as `Except.error`. -/
def find_free_ports (knownEnvs : List (List (String × PortInfo)))
    (dockerPsPorts composePsPorts : List Nat) (probeFree : Nat → Bool)
    (count : Nat) (start_port : Nat) : Except String (List Nat) :=
  let used_ports := recordedHostPorts knownEnvs ++ dockerPsPorts ++ composePsPorts
  let free_ports :=
    findLoopAux (eligiblePort used_ports probeFree) count (65535 - start_port) start_port []
  if free_ports.length < count then
    Except.error ("Could not find " ++ toString count ++ " free ports starting from "
      ++ toString start_port)
  else
    Except.ok free_ports

theorem findLoopAux_eq (elig : Nat → Bool) (count : Nat) :
    ∀ (fuel current : Nat) (acc : List Nat), acc.length ≤ count →
      findLoopAux elig count fuel current acc =
        acc ++ (((List.range' current fuel).filter elig).take (count - acc.length)) := by
  intro fuel
  induction fuel with
  | zero =>
      intro current acc _
      simp [findLoopAux]
  | succ fuel ih =>
      intro current acc hle
      by_cases hlt : acc.length < count
      · have hrange : List.range' current (fuel + 1) = current :: List.range' (current + 1) fuel :=
          rfl
        rw [findLoopAux, if_pos hlt, hrange]
        cases he : elig current with
        | true =>
            have hlen : (acc ++ [current]).length ≤ count := by
              simp only [List.length_append, List.length_cons, List.length_nil]
              omega
            rw [if_pos rfl, ih (current + 1) (acc ++ [current]) hlen]
            have hsub : count - acc.length = (count - (acc.length + 1)) + 1 := by omega
            simp [List.filter_cons, he, hsub]
        | false =>
            rw [if_neg (by simp), ih (current + 1) acc (Nat.le_of_lt hlt)]
            simp [List.filter_cons, he]
      · have heq : acc.length = count := Nat.le_antisymm hle (Nat.le_of_not_lt hlt)
        rw [findLoopAux, if_neg hlt]
        simp [heq]

theorem find_free_ports_eq (knownEnvs : List (List (String × PortInfo)))
    (dockerPsPorts composePsPorts : List Nat) (probeFree : Nat → Bool)
    (count : Nat) (start_port : Nat) :
    find_free_ports knownEnvs dockerPsPorts composePsPorts probeFree count start_port =
      (let used_ports := recordedHostPorts knownEnvs ++ dockerPsPorts ++ composePsPorts
       let l := ((List.range' start_port (65535 - start_port)).filter
                  (eligiblePort used_ports probeFree)).take count
       if l.length < count then
         Except.error ("Could not find " ++ toString count ++ " free ports starting from "
           ++ toString start_port)
       else Except.ok l) := by
  simp only [find_free_ports]
  rw [findLoopAux_eq _ _ _ _ [] (Nat.zero_le count)]
  simp

/-! ### Python string primitives

The Python string methods used by the orchestrator (`str.lower`,
`str.isdigit`, `str.split`, `int`, `in`, `str.strip`, `str.replace`) are
modelled character-by-character over `String.data`, since the corresponding
core `String` functions do not reduce inside the kernel. -/

/-- Python `str.lower()` (ASCII case folding, which is all the code uses). -/
def pyLower (s : String) : String :=
  String.mk (s.data.map Char.toLower)

/-- Python `str.isdigit()`: nonempty and every character a digit. -/
def pyIsDigit (s : String) : Bool :=
  !s.data.isEmpty && s.data.all Char.isDigit

/-- `db_version.split('.')[0]`: the prefix of the version string before the
first dot (`split` always yields at least one component, so indexing is
safe). -/
def majorComponent (v : String) : String :=
  String.mk (v.data.takeWhile (fun c => !(c == '.')))

/-- Decimal value of a digit string, as computed by Python `int` on a string
that passed `isdigit`. -/
def digitsToNat (cs : List Char) : Nat :=
  cs.foldl (fun n c => 10 * n + (c.toNat - '0'.toNat)) 0

/-- `s.startswith(pat)` over character lists. -/
def listStartsWith : List Char → List Char → Bool
  | _, [] => true
  | [], _ :: _ => false
  | c :: cs, p :: ps => (c == p) && listStartsWith cs ps

/-- Substring occurrence over character lists (Python `pat in s`). -/
def listContainsSub : List Char → List Char → Bool
  | [], pat => pat.isEmpty
  | c :: rest, pat => listStartsWith (c :: rest) pat || listContainsSub rest pat

/-- Python `pat in s` on strings. -/
def strContains (s pat : String) : Bool :=
  listContainsSub s.data pat.data

theorem C6_find_free_ports_correct (knownEnvs : List (List (String × PortInfo)))
    (dockerPsPorts composePsPorts : List Nat) (probeFree : Nat → Bool)
    (count start_port : Nat) :
    match find_free_ports knownEnvs dockerPsPorts composePsPorts probeFree count start_port with
    | Except.ok ps =>
        ps.length = count ∧ List.Pairwise (· < ·) ps ∧ ps.Nodup ∧
        ∀ p ∈ ps, probeFree p = true ∧ p ∉ recordedHostPorts knownEnvs
    | Except.error _ =>
        (((List.range' start_port (65535 - start_port)).filter
            (eligiblePort (recordedHostPorts knownEnvs ++ dockerPsPorts ++ composePsPorts)
              probeFree)).length) < count := by
  rw [find_free_ports_eq]
  simp only []
  set used_ports := recordedHostPorts knownEnvs ++ dockerPsPorts ++ composePsPorts with hused
  set l := (List.range' start_port (65535 - start_port)).filter
    (eligiblePort used_ports probeFree) with hl
  by_cases h : (l.take count).length < count
  · rw [if_pos h]
    show l.length < count
    rw [List.length_take] at h
    omega
  · rw [if_neg h]
    show (l.take count).length = count ∧ _ ∧ _ ∧ _
    have hpw : List.Pairwise (· < ·) l := by
      exact (List.pairwise_lt_range' start_port (65535 - start_port)).filter _
    have hpwt : List.Pairwise (· < ·) (l.take count) := hpw.sublist (List.take_sublist count l)
    refine ⟨?_, hpwt, hpwt.imp (fun hab => Nat.ne_of_lt hab), ?_⟩
    · rw [List.length_take] at h ⊢
      omega
    · intro p hp
      have hmem : p ∈ l := List.take_subset count l hp
      have := List.mem_filter.mp hmem
      have helig : eligiblePort used_ports probeFree p = true := this.2
      unfold eligiblePort at helig
      rw [Bool.and_eq_true] at helig
      have hprobe : probeFree p = true := helig.1
      have hnc : (used_ports.contains p) = false := by
        have := helig.2
        simpa using this
      refine ⟨hprobe, fun hr => ?_⟩
      have hmemu : p ∈ used_ports := by
        rw [hused]
        exact List.mem_append.mpr (Or.inl (List.mem_append.mpr (Or.inl hr)))
      have hcon : used_ports.contains p = true := by simpa using hmemu
      rw [hcon] at hnc
      simp at hnc

theorem C6_find_free_ports_correct_witness :
    find_free_ports [[("source", PortInfo.mk 10001 3306)]] [] [] (fun _ => true) 2 10001 =
      Except.ok [10002, 10003] ∧
    ([10002, 10003] : List Nat).length = 2 ∧
    List.Pairwise (· < ·) ([10002, 10003] : List Nat) ∧
    (10002 : Nat) ∉ recordedHostPorts [[("source", PortInfo.mk 10001 3306)]] := by
  have h := C6_find_free_ports_correct [[("source", PortInfo.mk 10001 3306)]] [] []
    (fun _ => true) 2 10001
  have e : find_free_ports [[("source", PortInfo.mk 10001 3306)]] [] [] (fun _ => true) 2 10001 =
      Except.ok [10002, 10003] := by rfl
  rw [e] at h
  exact ⟨e, h.1, h.2.1, (h.2.2.2 10002 (by simp)).2⟩

/-! ### Environment records and the topology spec builder -/

/-- The environment record created by `create_environment` (lines 175-185) and
mutated through the bootstrap / reconciliation phases.  The `ports` mapping is
passed separately where needed. -/
structure EnvData where
  id : String
  db_type : String
  db_version : String
  replication_type : String
  replica_count : Nat
  name : String
  status : String
  error : Option String
  containers : List String
deriving Repr, DecidableEq

/-- Per-service healthcheck block (lines 371-376 and 407-412). -/
structure Healthcheck where
  test : List String
  interval : String
  timeout : String
  retries : Nat
deriving Repr, DecidableEq

/-- One service definition of the generated compose file.
`dependsOnSourceHealthy` records the replica-only
`depends_on: source: condition: service_healthy` block. -/
structure Service where
  image : String
  container_name : String
  dependsOnSourceHealthy : Bool
  environmentRootPassword : String
  ports : List String
  volumes : List String
  command : List String
  networks : List String
  healthcheck : Healthcheck
deriving Repr, DecidableEq

/-- The generated compose file (line 416-425): service map in insertion order,
named volumes, and the bridge network. -/
structure ComposeFile where
  version : String
  services : List (String × Service)
  volumes : List String
  networks : List String
deriving Repr, DecidableEq

/-- `image_map.get(db_type.lower(), f'mysql:{version}')` (lines 344-351). -/
def imageFor (db_type version : String) : String :=
  if pyLower db_type == "mysql" then "mysql:" ++ version
  else if pyLower db_type == "percona" then "percona/percona-server:" ++ version
  else if pyLower db_type == "mariadb" then "mariadb:" ++ version
  else "mysql:" ++ version

/-- `DatabaseManager._get_replication_command` (lines 427-474).  Note that it
takes no version argument: the startup flags depend only on engine and
role. -/
def _get_replication_command (db_type role : String) : List String :=
  let db_type_lower := pyLower db_type
  if db_type_lower == "mysql" || db_type_lower == "percona" then
    if role == "source" then
      ["--server-id=1", "--log-bin=mysql-bin", "--binlog-format=ROW", "--gtid-mode=ON",
       "--enforce-gtid-consistency=ON", "--character-set-server=utf8mb4",
       "--collation-server=utf8mb4_unicode_ci"]
    else
      ["--log-bin=mysql-bin", "--binlog-format=ROW", "--gtid-mode=ON",
       "--enforce-gtid-consistency=ON", "--relay-log=replica-relay-bin", "--read-only=1",
       "--character-set-server=utf8mb4", "--collation-server=utf8mb4_unicode_ci"]
  else if db_type_lower == "mariadb" then
    if role == "source" then
      ["--server-id=1", "--log-bin=mysql-bin", "--binlog-format=ROW", "--gtid-domain-id=1",
       "--character-set-server=utf8mb4", "--collation-server=utf8mb4_unicode_ci"]
    else
      ["--log-bin=mysql-bin", "--binlog-format=ROW", "--gtid-domain-id=1",
       "--relay-log=replica-relay-bin", "--read-only=1",
       "--character-set-server=utf8mb4", "--collation-server=utf8mb4_unicode_ci"]
  else []

/-- `server_id = i + 1` for replica `i` (line 387). -/
def replicaServerId (i : Nat) : Nat := i + 1

/-- Host-port lookup `ports_config[role]['host']`. -/
def portOf (ports_config : List (String × PortInfo)) (role : String) : Nat :=
  ((ports_config.lookup role).map PortInfo.host).getD 0

/-- The shared healthcheck block. -/
def mkHealthcheck (root_password : String) : Healthcheck :=
  { test := ["CMD", "mysqladmin", "ping", "-h", "localhost", "-uroot", "-p" ++ root_password],
    interval := "10s", timeout := "5s", retries := 10 }

/-- The `source` service definition (lines 357-378). -/
def sourceService (db_type version env_id : String)
    (ports_config : List (String × PortInfo)) : Service :=
  let root_password := "root_password"
  let source_port := portOf ports_config "source"
  { image := imageFor db_type version
    container_name := env_id ++ "_source"
    dependsOnSourceHealthy := false
    environmentRootPassword := root_password
    ports := [toString source_port ++ ":3306"]
    volumes := ["source_data:/var/lib/mysql",
      "./init_source.sql:/docker-entrypoint-initdb.d/init.sql"]
    command := _get_replication_command db_type "source"
    networks := ["db_network"]
    healthcheck := mkHealthcheck root_password }

/-- One replica service definition (lines 384-413), with the dynamically
appended `--server-id` flag. -/
def replicaService (db_type version env_id : String)
    (ports_config : List (String × PortInfo)) (i : Nat) : String × Service :=
  let root_password := "root_password"
  let replica_name := "replica" ++ toString i
  let replica_port := portOf ports_config replica_name
  let server_id := replicaServerId i
  let replica_cmd := _get_replication_command db_type "replica" ++
    ["--server-id=" ++ toString server_id]
  (replica_name,
   { image := imageFor db_type version
     container_name := env_id ++ "_" ++ replica_name
     dependsOnSourceHealthy := true
     environmentRootPassword := root_password
     ports := [toString replica_port ++ ":3306"]
     volumes := [replica_name ++ "_data:/var/lib/mysql",
       "./init_replica.sql:/docker-entrypoint-initdb.d/init.sql"]
     command := replica_cmd
     networks := ["db_network"]
     healthcheck := mkHealthcheck root_password })

/-- `DatabaseManager._generate_async_template_with_replicas` (lines 342-425):
the source service followed by replicas 1..replica_count, in order. -/
def _generate_async_template_with_replicas (db_type version : String) (replica_count : Nat)
    (env_id : String) (ports_config : List (String × PortInfo)) : ComposeFile :=
  { version := "3.8"
    services := ("source", sourceService db_type version env_id ports_config) ::
      (List.range' 1 replica_count).map (replicaService db_type version env_id ports_config)
    volumes := "source_data" ::
      (List.range' 1 replica_count).map (fun i => "replica" ++ toString i ++ "_data")
    networks := ["db_network"] }

/-- `DatabaseManager.generate_compose_file` (lines 303-340): allocate
`1 + replica_count` ports, falling back to the sequential block
`10001..10001+total-1` when allocation raises; record the role→port mapping;
emit the compose topology. -/
def generate_compose_file (knownEnvs : List (List (String × PortInfo)))
    (dockerPsPorts composePsPorts : List Nat) (probeFree : Nat → Bool)
    (env_data : EnvData) : ComposeFile × List (String × PortInfo) :=
  let replica_count := env_data.replica_count
  let total_containers := 1 + replica_count
  let free_ports :=
    match find_free_ports knownEnvs dockerPsPorts composePsPorts probeFree
        total_containers 10001 with
    | Except.ok ps => ps
    | Except.error _ => List.range' 10001 total_containers
  let ports : List (String × PortInfo) :=
    ("source", PortInfo.mk (free_ports.getD 0 0) 3306) ::
      (List.range' 1 replica_count).map
        (fun i => ("replica" ++ toString i, PortInfo.mk (free_ports.getD i 0) 3306))
  (_generate_async_template_with_replicas (pyLower env_data.db_type) env_data.db_version
      replica_count env_data.id ports, ports)

/-- Name/command view of the generated services: source first with the static
source command, then replica `i` with the replica command plus its appended
server-id flag. -/
theorem services_name_command (db_type version : String) (replica_count : Nat)
    (env_id : String) (pts : List (String × PortInfo)) :
    (_generate_async_template_with_replicas db_type version replica_count env_id pts).services.map
        (fun s => (s.1, s.2.command)) =
      ("source", _get_replication_command db_type "source") ::
        (List.range' 1 replica_count).map (fun i =>
          ("replica" ++ toString i,
           _get_replication_command db_type "replica" ++
             ["--server-id=" ++ toString (replicaServerId i)])) := by
  simp only [_generate_async_template_with_replicas, List.map_cons, List.map_map]
  congr 1

/-! ### Claim C8: the process runner -/

/-- C8: the process runner always returns a structured
`{success, stdout, stderr, returncode}` result and never propagates a raised
fault; a timeout yields the distinguished failure (success false, the
`Command timed out` message in stderr, sentinel exit code `-1`); and
`success` is `true` exactly when the exit code is `0`. -/
theorem C8_process_runner_structured (o : ProcOutcome) :
    ((run_docker_command o).success = true ↔ (run_docker_command o).returncode = 0) ∧
    run_docker_command ProcOutcome.timedOut =
      { success := false, stdout := "", stderr := "Command timed out", returncode := -1 } ∧
    (∀ rc out err, run_docker_command (ProcOutcome.completed rc out err) =
      { success := rc == 0, stdout := out, stderr := err, returncode := rc }) ∧
    (∀ msg, run_docker_command (ProcOutcome.raised msg) =
      { success := false, stdout := "", stderr := msg, returncode := -1 }) := by
  refine ⟨?_, rfl, fun _ _ _ => rfl, fun _ => rfl⟩
  cases o with
  | completed rc out err => simp [run_docker_command]
  | timedOut => simp [run_docker_command]
  | raised msg => simp [run_docker_command]

/-! ### Claim C2: port-allocation failure during create -/

/-- A fully saturated probe: every TCP connect succeeds, so no port is ever
eligible and the scan exhausts the whole range. -/
theorem find_free_ports_all_busy :
    find_free_ports [] [] [] (fun _ => false) 2 10001 =
      Except.error "Could not find 2 free ports starting from 10001" := by
  have hfun : (eligiblePort (recordedHostPorts [] ++ [] ++ []) (fun _ => false)) =
      (fun _ => false) := by
    funext p
    simp [eligiblePort]
  rw [find_free_ports_eq]
  simp only [hfun, List.filter_false, List.take_nil, List.length_nil]
  rfl

/-- A concrete creating environment (mysql 8.0, one replica). -/
def envC2 : EnvData :=
  { id := "mysql_8.0_20260101_000000", db_type := "mysql", db_version := "8.0",
    replication_type := "async", replica_count := 1, name := "mysql_8.0_20260101_000000",
    status := "creating", error := none, containers := [] }

/-- C2 counterexample: when port allocation fails with the PortExhaustion
error, `generate_compose_file` does NOT fail the create: it silently assigns
the sequential fallback ports 10001/10002 and still builds the full topology
(source plus replica1), contradicting the claim that the failure is fatal and
that no topology is built with other ports. -/
theorem C2_counterexample :
    find_free_ports [] [] [] (fun _ => false) 2 10001 =
      Except.error "Could not find 2 free ports starting from 10001" ∧
    (generate_compose_file [] [] [] (fun _ => false) envC2).2 =
      [("source", PortInfo.mk 10001 3306), ("replica1", PortInfo.mk 10002 3306)] ∧
    ((generate_compose_file [] [] [] (fun _ => false) envC2).1.services.map Prod.fst) =
      ["source", "replica1"] := by
  have h2 : find_free_ports [] [] [] (fun _ => false) (1 + envC2.replica_count) 10001 =
      Except.error "Could not find 2 free ports starting from 10001" :=
    find_free_ports_all_busy
  refine ⟨find_free_ports_all_busy, ?_, ?_⟩ <;>
  · simp only [generate_compose_file]
    rw [h2]
    decide

/-- C2 amended: if port allocation fails, the create operation does not fail;
`generate_compose_file` catches the exception and falls back to the
sequential ports `10001 .. 10001+replica_count`, records them as the
environment's port assignments, and still builds the topology spec over
them. -/
theorem C2_amended_fallback_ports (knownEnvs : List (List (String × PortInfo)))
    (dockerPsPorts composePsPorts : List Nat) (probeFree : Nat → Bool)
    (env_data : EnvData) (e : String)
    (h : find_free_ports knownEnvs dockerPsPorts composePsPorts probeFree
        (1 + env_data.replica_count) 10001 = Except.error e) :
    (generate_compose_file knownEnvs dockerPsPorts composePsPorts probeFree env_data).2 =
      ("source", PortInfo.mk 10001 3306) ::
        (List.range' 1 env_data.replica_count).map
          (fun i => ("replica" ++ toString i, PortInfo.mk (10001 + i) 3306)) ∧
    (generate_compose_file knownEnvs dockerPsPorts composePsPorts probeFree env_data).1 =
      _generate_async_template_with_replicas (pyLower env_data.db_type) env_data.db_version
        env_data.replica_count env_data.id
        ((generate_compose_file knownEnvs dockerPsPorts composePsPorts probeFree env_data).2) := by
  have hgd : ∀ i, i < 1 + env_data.replica_count →
      (List.range' 10001 (1 + env_data.replica_count)).getD i 0 = 10001 + i := by
    intro i hi
    rw [List.getD_eq_getElem?_getD, List.getElem?_range' _ _ hi]
    simp
  constructor
  · simp only [generate_compose_file]
    rw [h]
    simp only []
    congr 1
    · rw [hgd 0 (by omega)]
    · apply List.map_congr_left
      intro i hi
      have hmem := List.mem_range'_1.mp hi
      rw [hgd i (by omega)]
  · simp only [generate_compose_file]

theorem C2_amended_fallback_ports_witness :
    (generate_compose_file [] [] [] (fun _ => false) envC2).2 =
      ("source", PortInfo.mk 10001 3306) ::
        (List.range' 1 envC2.replica_count).map
          (fun i => ("replica" ++ toString i, PortInfo.mk (10001 + i) 3306)) := by
  refine (C2_amended_fallback_ports [] [] [] (fun _ => false) envC2
    "Could not find 2 free ports starting from 10001" ?_).1
  rw [show (1 : Nat) + envC2.replica_count = 2 from rfl]
  exact find_free_ports_all_busy

/-! ### Claim C3: startup-command version branch -/

/-- `version_major = int(db_version.split('.')[0]) if
db_version.split('.')[0].isdigit() else 8` (line 557). -/
def version_major (db_version : String) : Nat :=
  if pyIsDigit (majorComponent db_version) then digitsToNat (majorComponent db_version).data
  else 8

/-- Port mapping for a one-replica topology, used in concrete instances. -/
def pts1 : List (String × PortInfo) :=
  [("source", PortInfo.mk 10001 3306), ("replica1", PortInfo.mk 10002 3306)]

/-- C3 counterexample: for version `5.7` (major 5 < 8) the generated startup
commands do NOT omit `--enforce-gtid-consistency=ON`; they are identical to
the version-8 commands, because `_get_replication_command` takes no version
argument at all. -/
theorem C3_counterexample :
    version_major "5.7" < 8 ∧
    ((_generate_async_template_with_replicas "mysql" "5.7" 1 "env57" pts1).services.map
        (fun s => s.2.command)) =
      ((_generate_async_template_with_replicas "mysql" "8.0" 1 "env57" pts1).services.map
        (fun s => s.2.command)) ∧
    "--enforce-gtid-consistency=ON" ∈ _get_replication_command "mysql" "source" ∧
    "--enforce-gtid-consistency=ON" ∈ _get_replication_command "mysql" "replica" ∧
    ((_generate_async_template_with_replicas "mysql" "5.7" 1 "env57" pts1).services.map
        (fun s => s.2.command)) =
      [_get_replication_command "mysql" "source",
       _get_replication_command "mysql" "replica" ++ ["--server-id=2"]] := by
  refine ⟨by decide, ?_, by decide, by decide, ?_⟩ <;> decide

/-- C3 amended: the startup commands of the generated topology are
independent of the version string (the version only selects the image);
for mysql and percona, both the primary and the replica startup commands
always contain the `--enforce-gtid-consistency=ON` flag, for every version.
The version-major branch exists only in the post-start replication SQL
selection, not in startup commands. -/
theorem C3_amended_commands_version_independent (db_type v1 v2 : String)
    (replica_count : Nat) (env_id : String) (pts : List (String × PortInfo)) :
    ((_generate_async_template_with_replicas db_type v1 replica_count env_id pts).services.map
        (fun s => (s.1, s.2.command)) =
      (_generate_async_template_with_replicas db_type v2 replica_count env_id pts).services.map
        (fun s => (s.1, s.2.command))) ∧
    ("--enforce-gtid-consistency=ON" ∈ _get_replication_command "mysql" "source") ∧
    ("--enforce-gtid-consistency=ON" ∈ _get_replication_command "mysql" "replica") ∧
    ("--enforce-gtid-consistency=ON" ∈ _get_replication_command "percona" "source") ∧
    ("--enforce-gtid-consistency=ON" ∈ _get_replication_command "percona" "replica") := by
  refine ⟨?_, by decide, by decide, by decide, by decide⟩
  rw [services_name_command, services_name_command]

/-! ### Claim C7: server-id assignment -/

/-- C7: in every generated topology for a supported engine, the primary's
startup command assigns `--server-id=1` (its first flag), replica `i = k+1`
carries the appended flag `--server-id=i+1`, and the resulting server-id
set `{1} ∪ {i+1 : 1 ≤ i ≤ n}` has no duplicates. -/
theorem C7_server_ids (db_type : String)
    (hdb : db_type = "mysql" ∨ db_type = "percona" ∨ db_type = "mariadb")
    (version env_id : String) (pts : List (String × PortInfo)) (n : Nat) :
    ((_generate_async_template_with_replicas db_type version n env_id pts).services.map
        (fun s => (s.1, s.2.command)))[0]? =
      some ("source", _get_replication_command db_type "source") ∧
    (_get_replication_command db_type "source")[0]? = some "--server-id=1" ∧
    (∀ k, k < n →
      ((_generate_async_template_with_replicas db_type version n env_id pts).services.map
          (fun s => (s.1, s.2.command)))[k + 1]? =
        some ("replica" ++ toString (k + 1),
          _get_replication_command db_type "replica" ++
            ["--server-id=" ++ toString (replicaServerId (k + 1))]) ∧
      replicaServerId (k + 1) = k + 2) ∧
    (1 :: (List.range' 1 n).map replicaServerId).Nodup := by
  refine ⟨?_, ?_, ?_, ?_⟩
  · rw [services_name_command]
    exact List.getElem?_cons_zero
  · rcases hdb with h | h | h <;> subst h <;> decide
  · intro k hk
    refine ⟨?_, rfl⟩
    rw [services_name_command, List.getElem?_cons_succ, List.getElem?_map,
      List.getElem?_range' _ _ hk]
    simp [Nat.add_comm]
  · rw [List.nodup_cons]
    constructor
    · intro hmem
      rcases List.mem_map.mp hmem with ⟨i, hi, hid⟩
      have := List.mem_range'_1.mp hi
      unfold replicaServerId at hid
      omega
    · exact (List.nodup_range' 1 n).map (fun a b hab => by
        unfold replicaServerId at hab
        omega)

theorem C7_server_ids_witness :
    ((_generate_async_template_with_replicas "mysql" "8.0" 2 "envW" pts1).services.map
        (fun s => (s.1, s.2.command)))[0]? =
      some ("source", _get_replication_command "mysql" "source") ∧
    (_get_replication_command "mysql" "source")[0]? = some "--server-id=1" ∧
    ((_generate_async_template_with_replicas "mysql" "8.0" 2 "envW" pts1).services.map
        (fun s => (s.1, s.2.command)))[1]? =
      some ("replica" ++ toString (0 + 1),
        _get_replication_command "mysql" "replica" ++
          ["--server-id=" ++ toString (replicaServerId (0 + 1))]) ∧
    replicaServerId (0 + 1) = 2 ∧
    (1 :: (List.range' 1 2).map replicaServerId).Nodup := by
  have h := C7_server_ids "mysql" (Or.inl rfl) "8.0" "envW" pts1 2
  exact ⟨h.1, h.2.1, (h.2.2.1 0 (by omega)).1, (h.2.2.1 0 (by omega)).2, h.2.2.2⟩

/-! ### Replication wiring (`_configure_replication`, lines 498-644) -/

/-- `str.strip()` over characters: drop whitespace from both ends. -/
def trimChars (cs : List Char) : List Char :=
  ((cs.dropWhile Char.isWhitespace).reverse.dropWhile Char.isWhitespace).reverse

/-- `.replace('\n', ' ')`: single-character substring replacement. -/
def newlinesToSpaces (cs : List Char) : List Char :=
  cs.map (fun c => if c == '\n' then ' ' else c)

/-- `.replace('  ', ' ')`: left-to-right non-overlapping replacement of
double spaces by single spaces. -/
def collapseDoubleSpace : List Char → List Char
  | ' ' :: ' ' :: rest => ' ' :: collapseDoubleSpace rest
  | c :: rest => c :: collapseDoubleSpace rest
  | [] => []

/-- `change_master_sql.strip().replace('\n', ' ').replace('  ', ' ')`
(line 608), used to flatten the multi-line statement for one-by-one
execution. -/
def cleanChangeMaster (s : String) : String :=
  String.mk (collapseDoubleSpace (newlinesToSpaces (trimChars s.data)))

/-- The `CHANGE REPLICATION SOURCE TO` statement for MySQL/Percona >= 8
(lines 563-568). -/
def changeSourceSql8 : String :=
  "CHANGE REPLICATION SOURCE TO\n  SOURCE_HOST=\x27source\x27,\n  SOURCE_USER=\x27repl\x27,\n  SOURCE_PASSWORD=\x27repl_password\x27,\n  SOURCE_AUTO_POSITION=1,\n  GET_SOURCE_PUBLIC_KEY=1;"

/-- The `CHANGE MASTER TO` statement for MySQL/Percona < 8 (lines 573-578). -/
def changeMasterSql57 : String :=
  "CHANGE MASTER TO\n  MASTER_HOST=\x27source\x27,\n  MASTER_USER=\x27repl\x27,\n  MASTER_PASSWORD=\x27repl_password\x27,\n  MASTER_AUTO_POSITION=1,\n  GET_MASTER_PUBLIC_KEY=1;"

/-- The `CHANGE MASTER TO` statement for MariaDB (lines 583-587). -/
def changeMasterSqlMaria : String :=
  "CHANGE MASTER TO\n  MASTER_HOST=\x27source\x27,\n  MASTER_USER=\x27repl\x27,\n  MASTER_PASSWORD=\x27repl_password\x27,\n  MASTER_USE_GTID=slave_pos;"

/-- The stop / change-source / start statement triple selected per engine and
version major (lines 556-588).  `db_type` arrives already lowercased. -/
structure ReplStatements where
  stop_cmd : String
  change_master_sql : String
  start_sql : String
deriving Repr, DecidableEq

/-- Statement selection of `_configure_replication` (lines 556-588). -/
def replicationStatements (db_type db_version : String) : ReplStatements :=
  if db_type = "mysql" ∨ db_type = "percona" then
    if version_major db_version ≥ 8 then
      { stop_cmd := "STOP REPLICA;", change_master_sql := changeSourceSql8,
        start_sql := "START REPLICA;" }
    else
      { stop_cmd := "STOP SLAVE;", change_master_sql := changeMasterSql57,
        start_sql := "START SLAVE;" }
  else
    { stop_cmd := "STOP SLAVE;", change_master_sql := changeMasterSqlMaria,
      start_sql := "START SLAVE;" }

/-- The two result fields of the fallback path's running result dictionary
(`{'success': ..., 'stderr': ...}`, the only keys later consulted). -/
structure WResult where
  success : Bool
  stderr : String
deriving Repr, DecidableEq

/-- Everything `_configure_replication` learns from the outside world, indexed
by retry attempt and replica number: the source liveness probe, the
replication-user existence query, per-replica liveness probes, the
`docker cp` result, the batch `mysql < file` execution result, and the
results of the statement-by-statement fallback executions. -/
structure WiringOracles where
  sourcePingOk : Nat → Bool
  sourceUserCheck : Nat → CmdResult
  replicaPingOk : Nat → Nat → Bool
  copyResult : Nat → CmdResult
  batchResult : Nat → CmdResult
  stmtResult : Nat → Nat → CmdResult

/-- `max_retries = 60` (line 507). -/
def max_retries : Nat := 60

/-- Readiness condition for attempt `i` of the source loop (lines 509-524):
ping succeeds, the user query succeeds, and its stdout contains `1` or
`repl`. -/
def sourceReadyAt (o : WiringOracles) (i : Nat) : Bool :=
  o.sourcePingOk i &&
    ((o.sourceUserCheck i).success &&
      (strContains (o.sourceUserCheck i).stdout "1" ||
       strContains (o.sourceUserCheck i).stdout "repl"))

/-- Bounded retry loop: the first attempt index (counting from `i`, for
`fuel` attempts) at which `f` succeeds. -/
def firstFrom (f : Nat → Bool) : Nat → Nat → Option Nat
  | _, 0 => none
  | i, fuel + 1 => if f i then some i else firstFrom f (i + 1) fuel

/-- The fallback loop of lines 609-617: execute the statements one by one,
starting from `{'success': True, 'stderr': ''}`, stopping at (and returning)
the first failing result. -/
def runFallbackFrom (stmtExec : Nat → CmdResult) : Nat → List String → WResult
  | _, [] => { success := true, stderr := "" }
  | k, _ :: rest =>
    let cmd_result := stmtExec k
    if cmd_result.success then runFallbackFrom stmtExec (k + 1) rest
    else { success := cmd_result.success, stderr := cmd_result.stderr }

/-- Outcome of wiring one replica: skipped because its liveness retry budget
was exhausted, or wired through the batch path (`usedFallback = false`) or
the one-by-one fallback path (`usedFallback = true`). -/
inductive ReplicaOutcome where
  | notReady
  | wired (usedFallback : Bool) (result : WResult)
deriving Repr, DecidableEq

/-- The per-replica body of `_configure_replication` (lines 531-644): wait for
the replica's liveness probe, build the statement file, `docker cp` it into
the container and execute it as a single batch; if (and only if) the copy
failed, fall back to executing the statements one by one. -/
def wireReplica (o : WiringOracles) (db_type db_version : String) (i : Nat) : ReplicaOutcome :=
  match firstFrom (o.replicaPingOk i) 0 max_retries with
  | none => ReplicaOutcome.notReady
  | some _ =>
    let stmts := replicationStatements db_type db_version
    let copy_result := o.copyResult i
    if copy_result.success then
      let r := o.batchResult i
      ReplicaOutcome.wired false { success := r.success, stderr := r.stderr }
    else
      let commands := [stmts.stop_cmd, cleanChangeMaster stmts.change_master_sql,
        stmts.start_sql]
      ReplicaOutcome.wired true (runFallbackFrom (o.stmtResult i) 0 commands)

/-- What the wiring pass did: whether the source became ready, and the
outcome for each replica (empty when wiring was aborted). -/
structure WiringTrace where
  sourceReady : Bool
  replicas : List ReplicaOutcome
deriving Repr, DecidableEq

/-- `DatabaseManager._configure_replication` (lines 498-644).  The
environment record is returned unchanged — the function only talks to the
containers and prints; in particular it never touches `env_data['status']`.
When the source readiness budget is exhausted it returns before any replica
is touched. -/
def configure_replication (o : WiringOracles) (env_data : EnvData) :
    EnvData × WiringTrace :=
  let db_type := pyLower env_data.db_type
  let replica_count := env_data.replica_count
  match firstFrom (sourceReadyAt o) 0 max_retries with
  | none => (env_data, { sourceReady := false, replicas := [] })
  | some _ =>
      (env_data,
       { sourceReady := true,
         replicas := (List.range' 1 replica_count).map
           (wireReplica o db_type env_data.db_version) })

/-- The post-start classification of `create_environment` (lines 270-291):
update the container inventory, then classify by the running count; only the
all-running branch sets status `running` and invokes replication wiring.  The
second component is the wiring trace (`none` when wiring was never
invoked). -/
def determineStatusAndWire (o : WiringOracles) (container_info : List (String × String))
    (env0 : EnvData) : EnvData × Option WiringTrace :=
  let env_data := { env0 with containers := container_info.map Prod.fst }
  if container_info.isEmpty then
    ({ env_data with status := "error", error := some "No containers found" }, none)
  else
    let running_count := (container_info.filter (fun c => c.2 == "running")).length
    if running_count = container_info.length then
      let env_running := { env_data with status := "running" }
      let res := configure_replication o env_running
      (res.1, some res.2)
    else if running_count > 0 then
      let msg := "Some containers are not running. Running: " ++ toString running_count
        ++ "/" ++ toString container_info.length
      ({ env_data with status := "partial", error := some msg }, none)
    else
      let msg := "All containers failed to start. Check container logs."
      ({ env_data with status := "error", error := some msg }, none)

theorem firstFrom_none (f : Nat → Bool) :
    ∀ (fuel i : Nat), (∀ j, i ≤ j → j < i + fuel → f j = false) →
      firstFrom f i fuel = none := by
  intro fuel
  induction fuel with
  | zero => intro i _; rfl
  | succ fuel ih =>
      intro i h
      unfold firstFrom
      rw [h i (Nat.le_refl i) (by omega)]
      simp only [Bool.false_eq_true, if_false]
      exact ih (i + 1) (fun j hj1 hj2 => h j (by omega) (by omega))

/-! ### Claim C10: non-numeric version major defaults to the >= 8 branch -/

/-- C10: for mysql/percona, a version string whose major component is not
numeric (e.g. `latest`) is treated as major 8 during replication wiring: the
selected statements are `STOP REPLICA;`, the `CHANGE REPLICATION SOURCE TO`
form carrying `GET_SOURCE_PUBLIC_KEY=1`, and `START REPLICA;`. -/
theorem C10_nonnumeric_major_treated_as_8 (v : String)
    (h : pyIsDigit (majorComponent v) = false) :
    version_major v = 8 ∧
    replicationStatements "mysql" v =
      { stop_cmd := "STOP REPLICA;", change_master_sql := changeSourceSql8,
        start_sql := "START REPLICA;" } ∧
    replicationStatements "percona" v =
      { stop_cmd := "STOP REPLICA;", change_master_sql := changeSourceSql8,
        start_sql := "START REPLICA;" } ∧
    strContains changeSourceSql8 "GET_SOURCE_PUBLIC_KEY=1" = true := by
  have h8 : version_major v = 8 := by simp [version_major, h]
  refine ⟨h8, ?_, ?_, by decide⟩
  · unfold replicationStatements
    rw [if_pos (Or.inl rfl), h8]
    simp
  · unfold replicationStatements
    rw [if_pos (Or.inr rfl), h8]
    simp

theorem C10_nonnumeric_major_treated_as_8_witness :
    pyIsDigit (majorComponent "latest") = false ∧
    version_major "latest" = 8 ∧
    (replicationStatements "mysql" "latest").stop_cmd = "STOP REPLICA;" := by
  have hp : pyIsDigit (majorComponent "latest") = false := by decide
  have h := C10_nonnumeric_major_treated_as_8 "latest" hp
  exact ⟨hp, h.1, by rw [h.2.1]⟩

/-! ### Claim C1: batch execution and the fallback path -/

/-- Oracle for a wiring run in which the `docker cp` succeeds but the batch
`mysql < /tmp/setup_replication.sql` execution fails. -/
def oBatchFail : WiringOracles :=
  { sourcePingOk := fun _ => true
    sourceUserCheck := fun _ =>
      { success := true, stdout := "1", stderr := "", returncode := 0 }
    replicaPingOk := fun _ _ => true
    copyResult := fun _ => { success := true, stdout := "", stderr := "", returncode := 0 }
    batchResult := fun _ =>
      { success := false, stdout := "", stderr := "ERROR 2002 (HY000)", returncode := 1 }
    stmtResult := fun _ _ => { success := true, stdout := "", stderr := "", returncode := 0 } }

/-- C1 counterexample: with a successful copy and a failing batch execution,
the wiring reports the batch failure and does NOT fall back to issuing the
statements individually (`usedFallback = false`) — the fallback is triggered
by a failing `docker cp`, not by a failing batch execution. -/
theorem C1_counterexample :
    wireReplica oBatchFail "mysql" "8.0" 1 =
      ReplicaOutcome.wired false { success := false, stderr := "ERROR 2002 (HY000)" } ∧
    (oBatchFail.copyResult 1).success = true ∧
    (oBatchFail.batchResult 1).success = false := by
  exact ⟨rfl, rfl, rfl⟩

/-- C1 amended: the statements are executed as a single batch whenever the
statement file could be copied into the replica container; the one-by-one
fallback is used exactly when the copy fails.  A failure of the batch
execution itself does not trigger the fallback: its failing result is
reported as-is. -/
theorem C1_amended_fallback_iff_copy_fails (o : WiringOracles) (db_type db_version : String)
    (i : Nat) (fb : Bool) (r : WResult)
    (h : wireReplica o db_type db_version i = ReplicaOutcome.wired fb r) :
    fb = !(o.copyResult i).success ∧
    ((o.copyResult i).success = true →
      r = { success := (o.batchResult i).success, stderr := (o.batchResult i).stderr }) := by
  unfold wireReplica at h
  cases hM : firstFrom (o.replicaPingOk i) 0 max_retries with
  | none =>
      rw [hM] at h
      exact absurd h (by simp)
  | some j =>
      rw [hM] at h
      by_cases hc : (o.copyResult i).success
      · simp only [hc, if_true] at h
        rw [ReplicaOutcome.wired.injEq] at h
        refine ⟨by rw [← h.1, hc]; rfl, fun _ => h.2.symm⟩
      · simp only [hc] at h
        rw [if_neg (by simp [hc]), ReplicaOutcome.wired.injEq] at h
        refine ⟨by rw [← h.1]; simp [hc], fun hcc => absurd hcc hc⟩

/-- Oracle for a wiring run in which the `docker cp` fails and the one-by-one
fallback executions all succeed. -/
def oCopyFail : WiringOracles :=
  { sourcePingOk := fun _ => true
    sourceUserCheck := fun _ =>
      { success := true, stdout := "1", stderr := "", returncode := 0 }
    replicaPingOk := fun _ _ => true
    copyResult := fun _ =>
      { success := false, stdout := "", stderr := "copy failed", returncode := 1 }
    batchResult := fun _ => { success := true, stdout := "", stderr := "", returncode := 0 }
    stmtResult := fun _ _ => { success := true, stdout := "", stderr := "", returncode := 0 } }

theorem C1_amended_fallback_iff_copy_fails_witness :
    wireReplica oCopyFail "mysql" "8.0" 1 =
      ReplicaOutcome.wired true { success := true, stderr := "" } ∧
    true = !(oCopyFail.copyResult 1).success := by
  have h : wireReplica oCopyFail "mysql" "8.0" 1 =
      ReplicaOutcome.wired true { success := true, stderr := "" } := rfl
  exact ⟨h, (C1_amended_fallback_iff_copy_fails oCopyFail "mysql" "8.0" 1 true _ h).1⟩

/-! ### Claim C5: source-readiness timeout leaves the environment running -/

/-- C5: when all containers are observed running, the create path sets the
status to `running` and starts replication wiring; if the primary's
readiness retry budget (60 attempts of ping plus replication-user check) is
exhausted, wiring aborts before touching any replica and the status remains
`running` — the environment is not downgraded or failed, and replication is
left unconfigured. -/
theorem C5_source_timeout_keeps_running (o : WiringOracles) (env0 : EnvData)
    (info : List (String × String))
    (hne : info.isEmpty = false)
    (hall : ∀ c ∈ info, c.2 = "running")
    (hnr : ∀ i, i < max_retries → sourceReadyAt o i = false) :
    (determineStatusAndWire o info env0).1.status = "running" ∧
    (determineStatusAndWire o info env0).2 =
      some { sourceReady := false, replicas := [] } := by
  have hfilter : info.filter (fun c => c.2 == "running") = info :=
    List.filter_eq_self.mpr (fun c hc => by rw [hall c hc]; rfl)
  have hcfg : firstFrom (sourceReadyAt o) 0 max_retries = none :=
    firstFrom_none _ max_retries 0 (fun j _ hj => hnr j (by omega))
  unfold determineStatusAndWire
  rw [hne]
  simp only [Bool.false_eq_true, if_false, hfilter, if_pos rfl]
  unfold configure_replication
  rw [hcfg]
  exact ⟨rfl, rfl⟩

/-- Oracle in which the source liveness probe never succeeds. -/
def oSourceDead : WiringOracles :=
  { sourcePingOk := fun _ => false
    sourceUserCheck := fun _ =>
      { success := false, stdout := "", stderr := "not ready", returncode := 1 }
    replicaPingOk := fun _ _ => true
    copyResult := fun _ => { success := true, stdout := "", stderr := "", returncode := 0 }
    batchResult := fun _ => { success := true, stdout := "", stderr := "", returncode := 0 }
    stmtResult := fun _ _ => { success := true, stdout := "", stderr := "", returncode := 0 } }

/-- A concrete environment entering the post-start phase. -/
def envC5 : EnvData :=
  { id := "mysql_8.0_20260102_000000", db_type := "mysql", db_version := "8.0",
    replication_type := "async", replica_count := 1, name := "mysql_8.0_20260102_000000",
    status := "creating", error := none, containers := [] }

theorem C5_source_timeout_keeps_running_witness :
    (determineStatusAndWire oSourceDead
        [("mysql_8.0_20260102_000000_source", "running"),
         ("mysql_8.0_20260102_000000_replica1", "running")] envC5).1.status = "running" ∧
    (determineStatusAndWire oSourceDead
        [("mysql_8.0_20260102_000000_source", "running"),
         ("mysql_8.0_20260102_000000_replica1", "running")] envC5).2 =
      some { sourceReady := false, replicas := [] } :=
  C5_source_timeout_keeps_running oSourceDead envC5
    [("mysql_8.0_20260102_000000_source", "running"),
     ("mysql_8.0_20260102_000000_replica1", "running")]
    rfl
    (by
      intro c hc
      simp only [List.mem_cons, List.not_mem_nil, or_false] at hc
      rcases hc with h | h <;> rw [h])
    (fun i _ => rfl)

/-! ### Status reconciliation (`list_environments`, lines 684-730) and
`get_environment` (lines 732-736) -/

/-- The per-environment body of `list_environments` when the compose-ps query
succeeded and parsed into `container_info` (lines 702-726): refresh the
container inventory and classify the status by the running count.  With no
containers found at all the status becomes `error`; with some but not all
running it becomes `partial` with a `Running: x/y containers` detail; with
none of several running it becomes `stopped`. -/
def reconcileEnv (env_data : EnvData) (container_info : List (String × String)) : EnvData :=
  if container_info.isEmpty then
    { env_data with status := "error", error := some "No containers found" }
  else
    let running := (container_info.filter (fun c => c.2 == "running")).length
    let total := container_info.length
    let env1 := { env_data with containers := container_info.map Prod.fst }
    if running = total then { env1 with status := "running" }
    else if running > 0 then
      let msg := "Running: " ++ toString running ++ "/" ++ toString total ++ " containers"
      { env1 with status := "partial", error := some msg }
    else { env1 with status := "stopped" }

/-- Modelled from the spec (section 4.4): the StatusReconciler classification
as a pure function of "found at all?" and the running/total counts. -/
def statusReconcilerSpec (found : Bool) (running total : Nat) : String :=
  if !found then "error"
  else if running = total then "running"
  else if running > 0 then "partial"
  else "stopped"

/-- `DatabaseManager.list_environments` (lines 684-730): reconcile every
stored environment against the freshly observed container states
(`observe id = none` models a missing compose file, a failed compose-ps
command, or a parse failure, in which case the record is left untouched). -/
def list_environments (environments : List (String × EnvData))
    (observe : String → Option (List (String × String))) : List EnvData :=
  environments.map (fun e =>
    match observe e.1 with
    | some info => reconcileEnv e.2 info
    | none => e.2)

/-- `DatabaseManager.get_environment` (lines 732-736): membership test, then
plain dictionary lookup.  No container state is consulted. -/
def get_environment (environments : List (String × EnvData)) (env_id : String) :
    Option EnvData :=
  if (environments.map Prod.fst).contains env_id then environments.lookup env_id
  else none

/-! ### Claim C4: StatusReconciler classification -/

/-- C4: the reconciled status is exactly the spec's pure function of the
observed counts — all running of a nonempty inventory gives `running`, some
but not all gives `partial` (with the `Running: x/y containers` detail),
an empty inventory gives `error`, and a nonempty inventory with nothing
running gives `stopped`. -/
theorem C4_status_classification (env : EnvData) (info : List (String × String)) :
    ((reconcileEnv env info).status =
      statusReconcilerSpec (!info.isEmpty)
        ((info.filter (fun c => c.2 == "running")).length) info.length) ∧
    ((reconcileEnv env info).status = "partial" →
      (reconcileEnv env info).error =
        some ("Running: " ++ toString ((info.filter (fun c => c.2 == "running")).length)
          ++ "/" ++ toString info.length ++ " containers")) := by
  cases hb : info.isEmpty with
  | true =>
      have hstat : (reconcileEnv env info).status = "error" := by
        simp only [reconcileEnv, hb, if_true]
      have hspec : statusReconcilerSpec (!true)
          ((info.filter (fun c => c.2 == "running")).length) info.length = "error" := by
        simp only [statusReconcilerSpec, hb, Bool.not_true, Bool.not_false, if_true]
      exact ⟨hstat.trans hspec.symm, fun hs => absurd (hstat ▸ hs) (by decide)⟩
  | false =>
      by_cases hrt : (info.filter (fun c => c.2 == "running")).length = info.length
      · have hstat : (reconcileEnv env info).status = "running" := by
          simp only [reconcileEnv, hb, Bool.false_eq_true, if_false]
          rw [if_pos hrt]
        have hspec : statusReconcilerSpec (!false)
            ((info.filter (fun c => c.2 == "running")).length) info.length = "running" := by
          simp only [statusReconcilerSpec, hb, Bool.not_false, Bool.not_true,
            Bool.false_eq_true, if_false]
          rw [if_pos hrt]
        exact ⟨hstat.trans hspec.symm, fun hs => absurd (hstat ▸ hs) (by decide)⟩
      · by_cases hr0 : (info.filter (fun c => c.2 == "running")).length > 0
        · have hstat : (reconcileEnv env info).status = "partial" := by
            simp only [reconcileEnv, hb, Bool.false_eq_true, if_false]
            rw [if_neg hrt, if_pos hr0]
          have herr : (reconcileEnv env info).error =
              some ("Running: " ++ toString ((info.filter (fun c => c.2 == "running")).length)
                ++ "/" ++ toString info.length ++ " containers") := by
            simp only [reconcileEnv, hb, Bool.false_eq_true, if_false]
            rw [if_neg hrt, if_pos hr0]
          have hspec : statusReconcilerSpec (!false)
              ((info.filter (fun c => c.2 == "running")).length) info.length = "partial" := by
            simp only [statusReconcilerSpec, hb, Bool.not_false, Bool.not_true,
              Bool.false_eq_true, if_false]
            rw [if_neg hrt, if_pos hr0]
          exact ⟨hstat.trans hspec.symm, fun _ => herr⟩
        · have hstat : (reconcileEnv env info).status = "stopped" := by
            simp only [reconcileEnv, hb, Bool.false_eq_true, if_false]
            rw [if_neg hrt, if_neg hr0]
          have hspec : statusReconcilerSpec (!false)
              ((info.filter (fun c => c.2 == "running")).length) info.length = "stopped" := by
            simp only [statusReconcilerSpec, hb, Bool.not_false, Bool.not_true,
              Bool.false_eq_true, if_false]
            rw [if_neg hrt, if_neg hr0]
          exact ⟨hstat.trans hspec.symm, fun hs => absurd (hstat ▸ hs) (by decide)⟩

/-- A stored environment used in concrete reconciliation instances. -/
def envStale : EnvData :=
  { id := "mysql_8.0_20260103_000000", db_type := "mysql", db_version := "8.0",
    replication_type := "async", replica_count := 1, name := "mysql_8.0_20260103_000000",
    status := "running", error := none,
    containers := ["mysql_8.0_20260103_000000_source", "mysql_8.0_20260103_000000_replica1"] }

theorem C4_status_classification_witness :
    (reconcileEnv envStale
      [("mysql_8.0_20260103_000000_source", "running"),
       ("mysql_8.0_20260103_000000_replica1", "exited")]).status = "partial" ∧
    (reconcileEnv envStale
      [("mysql_8.0_20260103_000000_source", "running"),
       ("mysql_8.0_20260103_000000_replica1", "exited")]).error =
      some "Running: 1/2 containers" := by
  have h := C4_status_classification envStale
    [("mysql_8.0_20260103_000000_source", "running"),
     ("mysql_8.0_20260103_000000_replica1", "exited")]
  have hs : (reconcileEnv envStale
      [("mysql_8.0_20260103_000000_source", "running"),
       ("mysql_8.0_20260103_000000_replica1", "exited")]).status = "partial" := by
    rw [h.1]
    decide
  exact ⟨hs, by rw [h.2 hs]; rfl⟩

/-! ### Claim C9: does get re-reconcile? -/

/-- C9 counterexample: `get_environment` returns the stored record unchanged.
For a store holding an environment whose recorded status is `running`, a get
returns `running` even though a fresh reconciliation of the observed
container states (both containers exited) would classify the environment as
`stopped` — so a get does not re-invoke the StatusReconciler. -/
theorem C9_counterexample :
    get_environment [("mysql_8.0_20260103_000000", envStale)] "mysql_8.0_20260103_000000" =
      some envStale ∧
    envStale.status = "running" ∧
    (reconcileEnv envStale
      [("mysql_8.0_20260103_000000_source", "exited"),
       ("mysql_8.0_20260103_000000_replica1", "exited")]).status = "stopped" ∧
    (list_environments [("mysql_8.0_20260103_000000", envStale)]
      (fun _ => some
        [("mysql_8.0_20260103_000000_source", "exited"),
         ("mysql_8.0_20260103_000000_replica1", "exited")])).map EnvData.status =
      ["stopped"] := by
  refine ⟨?_, rfl, ?_, ?_⟩ <;> decide

/-- C9 amended: `get_environment` on an existing id returns the stored record
as last written, without consulting any container state; only the list
operation re-invokes the StatusReconciler.  In particular the status a get
returns is the stored status, whatever a fresh observation would say. -/
theorem C9_amended_get_returns_stored (environments : List (String × EnvData))
    (env_id : String) (env : EnvData)
    (h : environments.lookup env_id = some env) :
    get_environment environments env_id = some env ∧
    (get_environment environments env_id).map EnvData.status = some env.status := by
  have hmem : (environments.map Prod.fst).contains env_id = true := by
    induction environments with
    | nil => simp [List.lookup] at h
    | cons e rest ih =>
        rw [List.lookup] at h
        cases hk : (env_id == e.1) with
        | true => simp [hk]
        | false =>
            rw [hk] at h
            simp only [List.map_cons, List.contains_cons]
            rw [ih h]
            simp
  have hget : get_environment environments env_id = some env := by
    unfold get_environment
    rw [hmem, if_pos rfl, h]
  exact ⟨hget, by rw [hget]; rfl⟩

theorem C9_amended_get_returns_stored_witness :
    get_environment [("mysql_8.0_20260103_000000", envStale)] "mysql_8.0_20260103_000000" =
      some envStale ∧
    (get_environment [("mysql_8.0_20260103_000000", envStale)]
        "mysql_8.0_20260103_000000").map EnvData.status = some "running" :=
  C9_amended_get_returns_stored [("mysql_8.0_20260103_000000", envStale)]
    "mysql_8.0_20260103_000000" envStale (by decide)
